import Mathlib

/-!
Verification of the FalconVault encrypted key vault against its design
specification.  The definitions below are a shallow embedding of the
TypeScript sources (`src/services/cryptoService.ts`, `src/hooks/useVault.ts`,
and the signer dispatcher component).  Machine-level primitives that live in
the platform (Web Crypto SHA-256 / PBKDF2 / AES-GCM, `JSON.stringify`,
`btoa`) are taken as parameters of the embedded functions; everything the
repository itself computes (packet shaping, hex encoding, store layout,
retry loops, dispatch, merge logic) is translated directly from the source.
-/

namespace FalconVault

/-- Attribute type of a user-defined wallet attribute
(`AttributeType = 'text' | 'select' | 'date'` in `src/types.ts`). -/
inductive AttrType where
  | text
  | select
  | date
deriving DecidableEq, Repr

/-- One user-defined attribute column (`AttributeDefinition` in `src/types.ts`). -/
structure AttributeDefinition where
  key : String
  label : String
  type : AttrType
  options : Option (List String)
deriving DecidableEq, Repr

/-- Vault settings (`VaultSettings` in `src/types.ts`): every field present. -/
structure VaultSettings where
  autoLockMinutes : Nat
  enableLogging : Bool
  attributeDefinitions : List AttributeDefinition
deriving DecidableEq, Repr

/-- A possibly-partial settings object as it may occur in persisted JSON or
in a `Partial<VaultSettings>` argument: each field present or absent. -/
structure SettingsPatch where
  autoLockMinutes : Option Nat
  enableLogging : Option Bool
  attributeDefinitions : Option (List AttributeDefinition)
deriving DecidableEq, Repr

/-- View of a full settings object as a patch with every field present
(this is how a fully-populated settings object appears once serialized). -/
def VaultSettings.toPatch (s : VaultSettings) : SettingsPatch :=
  { autoLockMinutes := some s.autoLockMinutes
    enableLogging := some s.enableLogging
    attributeDefinitions := some s.attributeDefinitions }

/-- JS object-spread merge `{...base, ...p}`: fields present in the patch
override the base (used at unlock for default-merging and in
`updateSettings`). -/
def mergeSettings (base : VaultSettings) (p : SettingsPatch) : VaultSettings :=
  { autoLockMinutes := p.autoLockMinutes.getD base.autoLockMinutes
    enableLogging := p.enableLogging.getD base.enableLogging
    attributeDefinitions := p.attributeDefinitions.getD base.attributeDefinitions }

/-- Embedding of `DEFAULT_SETTINGS` from `src/hooks/useVault.ts`. -/
def DEFAULT_SETTINGS : VaultSettings :=
  { autoLockMinutes := 15
    enableLogging := true
    attributeDefinitions := [{ key := "notes", label := "Notes", type := AttrType.text, options := none }] }

/-- A wallet record (`WalletData` in `src/types.ts`).  The open
string-keyed `metadata` object is modelled as an association list. -/
structure WalletData where
  id : String
  name : String
  address : String
  encryptedPrivateKey : String
  metadata : List (String × String)
  createdAt : Nat
deriving DecidableEq, Repr

/-- The persisted unit (`VaultStore` in `src/hooks/useVault.ts`).  The
settings read back from storage may lack fields added after the store was
written, hence `SettingsPatch`. -/
structure VaultStore where
  wallets : List WalletData
  masterHash : String
  settings : SettingsPatch
  checksum : String
deriving DecidableEq, Repr

/-- The `{ wallets, settings }` object that the integrity checksum is
computed over (`const data = { wallets: newWallets, settings: newSettings }`). -/
structure StoreData where
  wallets : List WalletData
  settings : SettingsPatch
deriving DecidableEq, Repr

/-! ## Hashing (`cryptoService.ts`)

`hashPassword` and `generateIntegrityHash` both run the platform SHA-256
digest and then hex-encode the 32-byte result with
`Array.from(new Uint8Array(hashBuffer)).map(b => b.toString(16).padStart(2,'0')).join('')`.
The digest itself is a parameter `sha256 : String → List Nat` (a list of
byte values); the hex encoding is embedded below. -/

/-- JS `b.toString(16)`: lowercase hexadecimal digits of a number. -/
def toHexStr (b : Nat) : List Char := Nat.toDigits 16 b

/-- JS `b.toString(16).padStart(2, '0')`: the hex form of one byte, padded
on the left with zeros to at least two characters. -/
def hexByte (b : Nat) : String :=
  let ds := toHexStr b
  String.mk (List.replicate (2 - ds.length) '0' ++ ds)

/-- JS `bytes.map(hexByte).join('')` over a digest. -/
def hexOfBytes : List Nat → String
  | [] => ""
  | b :: rest => hexByte b ++ hexOfBytes rest

/-- Embedding of `hashPassword` from `cryptoService.ts`: SHA-256 of the password,
hex-encoded. -/
def hashPassword (sha256 : String → List Nat) (password : String) : String :=
  hexOfBytes (sha256 password)

/-- Embedding of `generateIntegrityHash` from `cryptoService.ts`: SHA-256 of
`JSON.stringify(data)`, hex-encoded.  `stringify` abstracts
`JSON.stringify` on the `{wallets, settings}` object. -/
def generateIntegrityHash (sha256 : String → List Nat)
    (stringify : StoreData → String) (data : StoreData) : String :=
  hexOfBytes (sha256 (stringify data))

/-! ## Persistence (`useVault.ts`) -/

/-- The `persist` helper of `useVault.ts`: recompute the checksum over the
exact `{wallets, settings}` being written and store the full unit. -/
def persist (sha256 : String → List Nat) (stringify : StoreData → String)
    (newWallets : List WalletData) (newSettings : VaultSettings)
    (passHash : String) : VaultStore :=
  let data : StoreData := { wallets := newWallets, settings := newSettings.toPatch }
  let checksum := generateIntegrityHash sha256 stringify data
  { wallets := newWallets
    masterHash := passHash
    settings := newSettings.toPatch
    checksum := checksum }

/-- In-memory session state of the vault hook: working wallet list,
working settings, the plaintext master password, and the lock flag. -/
structure Session where
  wallets : List WalletData
  settings : VaultSettings
  masterPassword : String
  isLocked : Bool
deriving DecidableEq, Repr

/-- Outcome of `unlockVault`: the returned boolean, the session state after
the call, and whether the integrity warning was emitted. -/
structure UnlockOutcome where
  ok : Bool
  session : Session
  warn : Bool
deriving DecidableEq, Repr

/-- Embedding of `unlockVault` from `useVault.ts`.  `storage` is the parsed content of
`localStorage` under the store key (`none` when absent).  On a master-hash
match the working wallets are loaded verbatim, settings are merged over the
defaults, the password is retained and the vault unlocks; the checksum is
recomputed and compared, emitting a warning (only) when the stored checksum
is truthy (nonempty) and differs.  On a missing store or hash mismatch the
session is unchanged and `false` is returned. -/
def unlockVault (sha256 : String → List Nat) (stringify : StoreData → String)
    (storage : Option VaultStore) (password : String) (s : Session) : UnlockOutcome :=
  match storage with
  | none => { ok := false, session := s, warn := false }
  | some parsed =>
    let inputHash := hashPassword sha256 password
    if parsed.masterHash = inputHash then
      let dataToCheck : StoreData := { wallets := parsed.wallets, settings := parsed.settings }
      let calculatedChecksum := generateIntegrityHash sha256 stringify dataToCheck
      let warn := parsed.checksum != "" && parsed.checksum != calculatedChecksum
      { ok := true
        session :=
          { wallets := parsed.wallets
            settings := mergeSettings DEFAULT_SETTINGS parsed.settings
            masterPassword := password
            isLocked := false }
        warn := warn }
    else { ok := false, session := s, warn := false }

end FalconVault

namespace FalconVault

/-- Stand-in instantiation of the abstract SHA-256 digest used by concrete
witnesses (a real digest always yields exactly 32 bytes). -/
def sha256Stub : String → List Nat := fun _ => List.replicate 32 0

/-- Stand-in instantiation of `JSON.stringify` on store data, used by
concrete witnesses. -/
def stringifyStub : StoreData → String := fun _ => "store-data"

/-- A concrete persisted store used by witnesses: written by `persist`
under password `"pw"`. -/
def demoStore : VaultStore :=
  persist sha256Stub stringifyStub [] DEFAULT_SETTINGS (hashPassword sha256Stub "pw")

/-- A concrete locked session used by witnesses. -/
def lockedSession : Session :=
  { wallets := [], settings := DEFAULT_SETTINGS, masterPassword := "", isLocked := true }

end FalconVault

namespace FalconVault

/-- C2: `unlockVault` returns true iff a persisted store exists and the
hash of the supplied password equals the stored `masterHash`; on success
the working wallets equal the persisted wallets and the working settings
equal the persisted settings merged over the defaults. -/
theorem C2_unlock_correctness (sha256 : String → List Nat)
    (stringify : StoreData → String) (storage : Option VaultStore)
    (password : String) (s : Session) :
    ((unlockVault sha256 stringify storage password s).ok = true ↔
      ∃ v, storage = some v ∧ v.masterHash = hashPassword sha256 password) ∧
    (∀ v, storage = some v → v.masterHash = hashPassword sha256 password →
      (unlockVault sha256 stringify storage password s).session.wallets = v.wallets ∧
      (unlockVault sha256 stringify storage password s).session.settings =
        mergeSettings DEFAULT_SETTINGS v.settings) := by
  constructor
  · cases storage with
    | none => simp [unlockVault]
    | some v =>
      by_cases h : v.masterHash = hashPassword sha256 password
      · simp [unlockVault, h]
      · simp [unlockVault, h]
  · intro v hv hmatch
    subst hv
    simp [unlockVault, hmatch]

/-- Witness for C2 at a concrete store and password. -/
theorem C2_unlock_correctness_witness :
    (unlockVault sha256Stub stringifyStub (some demoStore) "pw" lockedSession).ok = true ∧
    (unlockVault sha256Stub stringifyStub (some demoStore) "pw" lockedSession).session.wallets
      = demoStore.wallets := by
  have h := C2_unlock_correctness sha256Stub stringifyStub (some demoStore) "pw" lockedSession
  refine ⟨h.1.mpr ⟨demoStore, rfl, by decide⟩, ?_⟩
  exact (h.2 demoStore rfl (by decide)).1

end FalconVault

namespace FalconVault

/-- A store whose checksum was emptied out of band: it differs from every
recomputed hex digest (a SHA-256 hex digest is never the empty string), yet
it is falsy in the guard `if (parsed.checksum && parsed.checksum !== calculatedChecksum)`. -/
def emptiedChecksumStore : VaultStore :=
  { wallets := []
    masterHash := hashPassword sha256Stub "pw"
    settings := DEFAULT_SETTINGS.toPatch
    checksum := "" }

/-- C4 counterexample: a persisted store whose stored checksum (here the
empty string, e.g. erased by tampering) differs from the recomputed
integrity hash and whose masterHash matches the supplied password, yet
`unlockVault` emits no tamper warning, because the guard first tests the
stored checksum for truthiness.  Unlock still succeeds. -/
theorem C4_counterexample :
    emptiedChecksumStore.checksum ≠
      generateIntegrityHash sha256Stub stringifyStub
        { wallets := emptiedChecksumStore.wallets, settings := emptiedChecksumStore.settings } ∧
    emptiedChecksumStore.masterHash = hashPassword sha256Stub "pw" ∧
    (unlockVault sha256Stub stringifyStub (some emptiedChecksumStore) "pw" lockedSession).ok = true ∧
    (unlockVault sha256Stub stringifyStub (some emptiedChecksumStore) "pw" lockedSession).warn = false := by
  refine ⟨by decide, rfl, ?_, ?_⟩ <;> decide

/-- C4 (amended): whenever the masterHash matches the supplied password,
`unlockVault` returns true regardless of the checksum (the mismatch never
blocks unlock); and whenever additionally the stored checksum is nonempty
and differs from the recomputed hash of `{wallets, settings}`, the tamper
warning is emitted and the wallets and settings are still loaded. -/
theorem C4_tamper_warning (sha256 : String → List Nat)
    (stringify : StoreData → String) (v : VaultStore) (password : String)
    (s : Session) (hmatch : v.masterHash = hashPassword sha256 password) :
    (unlockVault sha256 stringify (some v) password s).ok = true ∧
    ((v.checksum ≠ "" ∧
      v.checksum ≠ generateIntegrityHash sha256 stringify
        { wallets := v.wallets, settings := v.settings }) →
      (unlockVault sha256 stringify (some v) password s).warn = true ∧
      (unlockVault sha256 stringify (some v) password s).session.wallets = v.wallets ∧
      (unlockVault sha256 stringify (some v) password s).session.settings =
        mergeSettings DEFAULT_SETTINGS v.settings) := by
  refine ⟨by simp [unlockVault, hmatch], ?_⟩
  rintro ⟨h1, h2⟩
  simp [unlockVault, hmatch, bne_iff_ne, h1, h2]

/-- A store with a nonempty out-of-date checksum, for the C4 witness. -/
def staleChecksumStore : VaultStore :=
  { wallets := []
    masterHash := hashPassword sha256Stub "pw"
    settings := DEFAULT_SETTINGS.toPatch
    checksum := "deadbeef" }

/-- Witness for C4 at a concrete tampered store. -/
theorem C4_tamper_warning_witness :
    (unlockVault sha256Stub stringifyStub (some staleChecksumStore) "pw" lockedSession).ok = true ∧
    (unlockVault sha256Stub stringifyStub (some staleChecksumStore) "pw" lockedSession).warn = true := by
  have h := C4_tamper_warning sha256Stub stringifyStub staleChecksumStore "pw" lockedSession rfl
  exact ⟨h.1, (h.2 ⟨by decide, by decide⟩).1⟩

end FalconVault

namespace FalconVault

/-! ## Encryption (`cryptoService.ts`)

`encryptData` draws a fresh 16-byte salt and 12-byte IV, derives an AES-GCM
key from the password via PBKDF2 (platform primitives, here the parameters
`deriveKey`, `aeadEnc`, `aeadDec`), encrypts the UTF-8 encoding of the
plaintext, and serializes the packet `{salt, iv, data}` with
`btoa(JSON.stringify(...))` (parameters `packetEncode` / `packetDecode`).
`decryptData` inverts the envelope and fails with one generic message on
any parse or AEAD failure. -/

/-- The `{salt, iv, data}` packet serialized into the encrypted blob.
Byte arrays are lists of byte values. -/
structure Packet where
  salt : List Nat
  iv : List Nat
  data : List Nat
deriving DecidableEq, Repr

/-- The single generic failure message of `decryptData`. -/
def decryptFailureMsg : String :=
  "Decryption failed. Password incorrect or data corrupted."

/-- Embedding of `encryptData` from `cryptoService.ts`, with the randomly drawn salt and
IV made explicit arguments and the platform crypto passed as parameters. -/
def encryptData {K : Type} (deriveKey : String → List Nat → K)
    (aeadEnc : K → List Nat → List Nat → List Nat)
    (strEncode : String → List Nat) (packetEncode : Packet → String)
    (data password : String) (salt iv : List Nat) : String :=
  let key := deriveKey password salt
  let encrypted := aeadEnc key iv (strEncode data)
  packetEncode { salt := salt, iv := iv, data := encrypted }

/-- Embedding of `decryptData` from `cryptoService.ts`: parse the envelope, re-derive
the key from the embedded salt and the supplied password, AEAD-decrypt;
any failure collapses to the one generic error message. -/
def decryptData {K : Type} (deriveKey : String → List Nat → K)
    (aeadDec : K → List Nat → List Nat → Option (List Nat))
    (strDecode : List Nat → String) (packetDecode : String → Option Packet)
    (encryptedBase64 password : String) : Except String String :=
  match packetDecode encryptedBase64 with
  | none => Except.error decryptFailureMsg
  | some packet =>
    let key := deriveKey password packet.salt
    match aeadDec key packet.iv packet.data with
    | none => Except.error decryptFailureMsg
    | some decrypted => Except.ok (strDecode decrypted)

/-- C1: decrypting the blob produced by `encryptData(P, W)` with the same
password `W` returns `P`, for the explicit salt and IV used by the
encryption.  The hypotheses state, at exactly the points used, the
correctness contracts of the platform primitives the code calls: the
JSON/base64 envelope round-trips, AES-GCM decryption inverts encryption
under the same key and IV, and text decoding inverts text encoding. -/
theorem C1_encrypt_decrypt_roundtrip {K : Type}
    (deriveKey : String → List Nat → K)
    (aeadEnc : K → List Nat → List Nat → List Nat)
    (aeadDec : K → List Nat → List Nat → Option (List Nat))
    (strEncode : String → List Nat) (strDecode : List Nat → String)
    (packetEncode : Packet → String) (packetDecode : String → Option Packet)
    (data password : String) (salt iv : List Nat)
    (hpacket : packetDecode (packetEncode
      { salt := salt, iv := iv,
        data := aeadEnc (deriveKey password salt) iv (strEncode data) }) =
      some { salt := salt, iv := iv,
             data := aeadEnc (deriveKey password salt) iv (strEncode data) })
    (haead : aeadDec (deriveKey password salt) iv
        (aeadEnc (deriveKey password salt) iv (strEncode data)) =
      some (strEncode data))
    (hstr : strDecode (strEncode data) = data) :
    decryptData deriveKey aeadDec strDecode packetDecode
      (encryptData deriveKey aeadEnc strEncode packetEncode data password salt iv)
      password = Except.ok data := by
  simp [encryptData, decryptData, hpacket, haead, hstr]

/-- Identity instantiation of the AEAD layer used by the C1 witness. -/
def aeadEncStub : Unit → List Nat → List Nat → List Nat := fun _ _ d => d

/-- Inverse of `aeadEncStub`. -/
def aeadDecStub : Unit → List Nat → List Nat → Option (List Nat) := fun _ _ d => some d

/-- Salt used by the C1 witness (16 bytes, as drawn by the source). -/
def saltW : List Nat := List.replicate 16 1

/-- IV used by the C1 witness (12 bytes, as drawn by the source). -/
def ivW : List Nat := List.replicate 12 2

/-- Envelope decoder used by the C1 witness, inverting a constant encoder
on the one packet the witness produces. -/
def packetDecodeStub : String → Option Packet :=
  fun _ => some { salt := saltW, iv := ivW, data := [0] }

/-- Witness for C1 at a concrete plaintext, password, salt and IV. -/
theorem C1_encrypt_decrypt_roundtrip_witness :
    decryptData (fun _ _ => ()) aeadDecStub (fun _ => "secret") packetDecodeStub
      (encryptData (fun _ _ => ()) aeadEncStub (fun _ => [0]) (fun _ => "blob")
        "secret" "hunter2" saltW ivW) "hunter2" = Except.ok "secret" :=
  C1_encrypt_decrypt_roundtrip (fun _ _ => ()) aeadEncStub aeadDecStub
    (fun _ => [0]) (fun _ => "secret") (fun _ => "blob") packetDecodeStub
    "secret" "hunter2" saltW ivW rfl rfl rfl

/-! ## Retry wrapper (`fetchWithRetry` in `cryptoService.ts`)

The loop walks the URL list in order; each iteration builds a provider and
runs the callback, catching any failure into `lastError` and moving on; a
success returns immediately.  After the loop the last error (or a generic
message when the list was empty) is thrown.  One endpoint attempt is
modelled by its outcome, `Except String α`. -/

/-- Loop of `fetchWithRetry`, carrying `lastError`. -/
def fetchWithRetryAux {α : Type} : List (Except String α) → Option String → Except String α
  | [], none => Except.error "All RPCs failed"
  | [], some e => Except.error e
  | a :: rest, lastError =>
    match a with
    | Except.ok v => Except.ok v
    | Except.error e =>
      let _ := lastError
      fetchWithRetryAux rest (some e)

/-- Embedding of `fetchWithRetry` from `cryptoService.ts`, over the outcomes of the
attempts at each endpoint in listed order. -/
def fetchWithRetry {α : Type} (attempts : List (Except String α)) : Except String α :=
  fetchWithRetryAux attempts none

theorem fetchWithRetryAux_first_ok {α : Type} (pre : List (Except String α)) :
    ∀ (v : α) (rest : List (Except String α)) (le : Option String),
      (∀ a ∈ pre, ∃ e, a = Except.error e) →
      fetchWithRetryAux (pre ++ Except.ok v :: rest) le = Except.ok v := by
  induction pre with
  | nil => intro v rest le _; rfl
  | cons a pre ih =>
    intro v rest le h
    obtain ⟨e, he⟩ := h a (List.mem_cons_self a pre)
    subst he
    simpa [fetchWithRetryAux] using
      ih v rest (some e) (fun b hb => h b (List.mem_cons_of_mem _ hb))

theorem fetchWithRetryAux_all_err {α : Type} (pre : List (Except String α)) :
    ∀ (e : String) (le : Option String),
      (∀ a ∈ pre, ∃ e2, a = Except.error e2) →
      fetchWithRetryAux (pre ++ [Except.error e]) le = Except.error e := by
  induction pre with
  | nil => intro e le _; rfl
  | cons a pre ih =>
    intro e le h
    obtain ⟨e2, he⟩ := h a (List.mem_cons_self a pre)
    subst he
    simpa [fetchWithRetryAux] using
      ih e (some e2) (fun b hb => h b (List.mem_cons_of_mem _ hb))

theorem fetchWithRetryAux_err_all {α : Type} (attempts : List (Except String α)) :
    ∀ (le : Option String) (e : String),
      fetchWithRetryAux attempts le = Except.error e →
      ∀ a ∈ attempts, ∃ e2, a = Except.error e2 := by
  induction attempts with
  | nil => intro le e _ a ha; exact absurd ha (List.not_mem_nil a)
  | cons a rest ih =>
    intro le e hrun b hb
    cases a with
    | ok v => simp [fetchWithRetryAux] at hrun
    | error e2 =>
      rcases List.mem_cons.mp hb with rfl | hb2
      · exact ⟨e2, rfl⟩
      · exact ih (some e2) e (by simpa [fetchWithRetryAux] using hrun) b hb2

/-- C3: the retry wrapper attempts endpoints in listed order: it returns
the result of the first endpoint whose attempt succeeds (all earlier
attempts having failed), it fails only when every attempt in the list has
failed, and in that case it surfaces the error of the last attempt. -/
theorem C3_retry_first_success_last_error {α : Type}
    (attempts : List (Except String α)) :
    (∀ (pre : List (Except String α)) (v : α) (rest : List (Except String α)),
      attempts = pre ++ Except.ok v :: rest →
      (∀ a ∈ pre, ∃ e, a = Except.error e) →
      fetchWithRetry attempts = Except.ok v) ∧
    (∀ e, fetchWithRetry attempts = Except.error e →
      ∀ a ∈ attempts, ∃ e2, a = Except.error e2) ∧
    (∀ (pre : List (Except String α)) (e : String),
      attempts = pre ++ [Except.error e] →
      (∀ a ∈ pre, ∃ e2, a = Except.error e2) →
      fetchWithRetry attempts = Except.error e) := by
  refine ⟨?_, ?_, ?_⟩
  · rintro pre v rest rfl h
    exact fetchWithRetryAux_first_ok pre v rest none h
  · intro e hrun
    exact fetchWithRetryAux_err_all attempts none e hrun
  · rintro pre e rfl h
    exact fetchWithRetryAux_all_err pre e none h

/-- Witness for C3: a list whose first three attempts fail and whose
fourth succeeds yields the fourth result; a list of pure failures yields
the last error. -/
theorem C3_retry_first_success_last_error_witness :
    fetchWithRetry [Except.error "e1", Except.error "e2", Except.error "e3",
      Except.ok (7 : Nat)] = Except.ok 7 ∧
    fetchWithRetry [Except.error "e1", Except.error "e2",
      (Except.error "e3" : Except String Nat)] = Except.error "e3" := by
  constructor
  · exact (C3_retry_first_success_last_error _).1
      [Except.error "e1", Except.error "e2", Except.error "e3"] 7 [] rfl
      (by intro a ha; fin_cases ha <;> exact ⟨_, rfl⟩)
  · exact (C3_retry_first_success_last_error _).2.2
      [Except.error "e1", Except.error "e2"] "e3" rfl
      (by intro a ha; fin_cases ha <;> exact ⟨_, rfl⟩)

end FalconVault

namespace FalconVault

/-! ## Network configuration and chain operations (`cryptoService.ts`) -/

/-- JS `networkKey.toLowerCase()` on the ASCII network keys. -/
def toLowerStr (s : String) : String := String.mk (s.data.map Char.toLower)

/-- The `NETWORKS` table: ordered RPC endpoint lists per network key. -/
def NETWORKS : List (String × List String) :=
  [ ("mainnet",
      [ "https://eth.llamarpc.com",
        "https://rpc.ankr.com/eth",
        "https://1rpc.io/eth",
        "https://cloudflare-eth.com" ]),
    ("arbitrum",
      [ "https://arb1.arbitrum.io/rpc",
        "https://rpc.ankr.com/arbitrum",
        "https://1rpc.io/arb" ]),
    ("optimism",
      [ "https://mainnet.optimism.io",
        "https://rpc.ankr.com/optimism",
        "https://optimism.llamarpc.com" ]),
    ("polygon",
      [ "https://polygon-rpc.com",
        "https://rpc.ankr.com/polygon",
        "https://1rpc.io/matic" ]),
    ("base",
      [ "https://mainnet.base.org",
        "https://base.llamarpc.com",
        "https://1rpc.io/base" ]),
    ("zksync",
      [ "https://mainnet.era.zksync.io",
        "https://1rpc.io/zksync2-era" ]),
    ("linea",
      [ "https://rpc.linea.build",
        "https://1rpc.io/linea" ]),
    ("sepolia",
      [ "https://rpc.ankr.com/eth_sepolia",
        "https://1rpc.io/sepolia" ]) ]

/-- JS property lookup `NETWORKS[key]`. -/
def networksLookup (key : String) : Option (List String) :=
  (NETWORKS.find? (fun p => p.1 == key)).map Prod.snd

/-- Token contract configuration for one network (`TOKEN_ADDRESSES` values). -/
structure TokenCfg where
  usdt : Option String
  usdc : Option String
deriving DecidableEq, Repr

/-- The `TOKEN_ADDRESSES` table (note: no entry for `sepolia`). -/
def TOKEN_ADDRESSES : List (String × TokenCfg) :=
  [ ("mainnet",
      { usdt := some "0xdac17f958d2ee523a2206206994597c13d831ec7",
        usdc := some "0xa0b86991c6218b36c1d19d4a2e9eb0ce3606eb48" }),
    ("arbitrum",
      { usdt := some "0xFd086bC7CD5C481DCC9C85ebE478A1C0b69FCbb9",
        usdc := some "0xaf88d065e77c8cC2239327C5EDb3A432268e5831" }),
    ("optimism",
      { usdt := some "0x94b008aA00579c1307B0EF2c499aD98a8ce98748",
        usdc := some "0x0b2C630C5307324423542016988782fC8f48345e" }),
    ("polygon",
      { usdt := some "0xc2132D05D31c914a87C6611C10748AEb04B58e8F",
        usdc := some "0x3c499c542cEF5E3811e1192ce70d8cC03d5c3359" }),
    ("base",
      { usdt := none,
        usdc := some "0x833589fCD6eDb6E08f4c7C32D4f71b54bdA02913" }),
    ("zksync",
      { usdt := none,
        usdc := some "0x3355df6D4c9C3035724Fd0e3914dE96A5a83aaf4" }),
    ("linea",
      { usdt := none,
        usdc := some "0x176211869cA2b568f2A7D4EE941E073a821EE1ff" }) ]

/-- JS property lookup `TOKEN_ADDRESSES[key]`. -/
def tokensLookup (key : String) : Option TokenCfg :=
  (TOKEN_ADDRESSES.find? (fun p => p.1 == key)).map Prod.snd

/-- The empty token configuration (JS `{}` fallback). -/
def emptyTokenCfg : TokenCfg := { usdt := none, usdc := none }

/-- Embedding of `ethCall` from `cryptoService.ts`: reject an unknown (lowercased)
network key, otherwise run the per-endpoint callback through the retry
wrapper.  `attempt` gives the outcome of the callback at each endpoint
URL. -/
def ethCall {α : Type} (attempt : String → Except String α) (networkKey : String) :
    Except String α :=
  match networksLookup (toLowerStr networkKey) with
  | none => Except.error ("Unsupported network key: " ++ networkKey)
  | some rpcUrls => fetchWithRetry (rpcUrls.map attempt)

/-- Embedding of `estimateGas` from `cryptoService.ts`: same guard and retry shape. -/
def estimateGas {α : Type} (attempt : String → Except String α) (networkKey : String) :
    Except String α :=
  match networksLookup (toLowerStr networkKey) with
  | none => Except.error ("Unsupported network key: " ++ networkKey)
  | some rpcUrls => fetchWithRetry (rpcUrls.map attempt)

/-- Embedding of `fetchNonce` from `cryptoService.ts`: same guard and retry shape. -/
def fetchNonce {α : Type} (attempt : String → Except String α) (networkKey : String) :
    Except String α :=
  match networksLookup (toLowerStr networkKey) with
  | none => Except.error ("Unsupported network key: " ++ networkKey)
  | some rpcUrls => fetchWithRetry (rpcUrls.map attempt)

/-- Embedding of `broadcastTransaction` from `cryptoService.ts`: same guard and retry
shape. -/
def broadcastTransaction {α : Type} (attempt : String → Except String α)
    (networkKey : String) : Except String α :=
  match networksLookup (toLowerStr networkKey) with
  | none => Except.error ("Unsupported network key: " ++ networkKey)
  | some rpcUrls => fetchWithRetry (rpcUrls.map attempt)

/-- Endpoint list used by `fetchBalance`
(`NETWORKS[networkKey.toLowerCase()] || NETWORKS['mainnet']`). -/
def fetchBalanceUrls (networkKey : String) : List String :=
  match networksLookup (toLowerStr networkKey) with
  | some u => u
  | none => (networksLookup "mainnet").getD []

/-- Token set used by `fetchBalance`
(`TOKEN_ADDRESSES[networkKey.toLowerCase()] || {}`). -/
def fetchBalanceTokens (networkKey : String) : TokenCfg :=
  (tokensLookup (toLowerStr networkKey)).getD emptyTokenCfg

/-- The mainnet endpoint list. -/
def mainnetUrls : List String :=
  [ "https://eth.llamarpc.com",
    "https://rpc.ankr.com/eth",
    "https://1rpc.io/eth",
    "https://cloudflare-eth.com" ]

/-- Every key configured in `TOKEN_ADDRESSES` is also configured in
`NETWORKS`, so a key unknown to `NETWORKS` is unknown to
`TOKEN_ADDRESSES` as well. -/
theorem tokensLookup_none_of_networksLookup_none (k : String)
    (h : networksLookup k = none) : tokensLookup k = none := by
  cases hT : TOKEN_ADDRESSES.find? (fun q => q.1 == k) with
  | none => simp [tokensLookup, hT]
  | some entry =>
    have hmem := List.mem_of_find?_eq_some hT
    have hkey : (entry.1 == k) = true := by simpa using List.find?_some hT
    have hk : entry.1 = k := by simpa using hkey
    subst hk
    fin_cases hmem <;> exact absurd h (by decide)

/-- C9 counterexample: the key `"MAINNET"` is not present in the
configured `NETWORKS` table (all its keys are lowercase), yet `ethCall`
does not raise an `Unsupported network key` error for it — the operations
lowercase the key before the lookup — and `fetchBalance` uses the mainnet
token set rather than an empty one.  This refutes the claim as stated,
which quantifies over every key not present in the table. -/
theorem C9_counterexample :
    networksLookup "MAINNET" = none ∧
    ethCall (fun _ => Except.ok (0 : Nat)) "MAINNET" = Except.ok 0 ∧
    fetchBalanceTokens "MAINNET" ≠ emptyTokenCfg := by
  refine ⟨by decide, by rfl, by decide⟩

/-- C9 (amended): for every network key whose lowercased form is not
present in `NETWORKS`, `fetchBalance` silently falls back to the mainnet
endpoint list and an empty token set, whereas `ethCall`, `estimateGas`,
`fetchNonce` and `broadcastTransaction` each raise an
`Unsupported network key` error for the same input. -/
theorem C9_fallback_asymmetry {α : Type} (attempt : String → Except String α)
    (networkKey : String) (h : networksLookup (toLowerStr networkKey) = none) :
    fetchBalanceUrls networkKey = mainnetUrls ∧
    fetchBalanceTokens networkKey = emptyTokenCfg ∧
    ethCall attempt networkKey =
      Except.error ("Unsupported network key: " ++ networkKey) ∧
    estimateGas attempt networkKey =
      Except.error ("Unsupported network key: " ++ networkKey) ∧
    fetchNonce attempt networkKey =
      Except.error ("Unsupported network key: " ++ networkKey) ∧
    broadcastTransaction attempt networkKey =
      Except.error ("Unsupported network key: " ++ networkKey) := by
  have ht := tokensLookup_none_of_networksLookup_none _ h
  refine ⟨?_, ?_, ?_, ?_, ?_, ?_⟩
  · simp only [fetchBalanceUrls, h]; rfl
  · simp only [fetchBalanceTokens, ht]; rfl
  · simp only [ethCall, h]
  · simp only [estimateGas, h]
  · simp only [fetchNonce, h]
  · simp only [broadcastTransaction, h]

/-- Witness for C9 at the unconfigured key `"solana"`. -/
theorem C9_fallback_asymmetry_witness :
    fetchBalanceUrls "solana" = mainnetUrls ∧
    ethCall (fun _ => Except.ok (0 : Nat)) "solana" =
      Except.error ("Unsupported network key: " ++ "solana") := by
  have h := C9_fallback_asymmetry (fun _ => Except.ok (0 : Nat)) "solana" (by decide)
  exact ⟨h.1, h.2.2.1⟩

end FalconVault

namespace FalconVault

/-! ## Balance fetch attempt (`fetchBalance` in `cryptoService.ts`)

One endpoint attempt races the native `getBalance` call against a fixed
5-second timeout, fetches the USDT/USDC `balanceOf` (when configured for
the network) with a `.catch(() => BigInt(0))` fallback, and joins the
three.  The `Promise.race` is modelled by the native call's duration: the
timeout wins exactly when the native query takes at least the bound.  The
`.catch` on each token promise means a token failure is absorbed as a zero
balance, while a native failure (or timeout) rejects the whole
`Promise.all`, failing the attempt.  `formatValue` (ethers number
formatting) is kept abstract. -/

/-- The fixed client-side timeout of the native-currency query
(`setTimeout(..., 5000)` in `fetchBalance`). -/
def BALANCE_TIMEOUT_MS : Nat := 5000

/-- Balance values returned by one successful attempt (`AssetValues` in
`src/types.ts`); `wei` is the raw native balance. -/
structure AssetValues where
  eth : String
  wei : Nat
  usdt : String
  usdc : String
deriving DecidableEq, Repr

/-- Environment of one `fetchBalance` endpoint attempt: how long the
native query takes, and the outcomes of the native and token queries. -/
structure BalanceAttemptEnv where
  nativeDurationMs : Nat
  nativeResult : Except String Nat
  usdtResult : Except String Nat
  usdcResult : Except String Nat
deriving Repr

/-- The body of one `fetchBalance` endpoint attempt (the callback passed
to `fetchWithRetry`). -/
def attemptBalance (formatValue : Nat → Nat → String) (tokens : TokenCfg)
    (env : BalanceAttemptEnv) : Except String AssetValues :=
  let raced : Except String Nat :=
    if BALANCE_TIMEOUT_MS ≤ env.nativeDurationMs then Except.error "RPC Timeout"
    else env.nativeResult
  match raced with
  | Except.error e => Except.error e
  | Except.ok ethBal =>
    let usdtBal : Nat :=
      match tokens.usdt with
      | none => 0
      | some _ => match env.usdtResult with
        | Except.ok v => v
        | Except.error _ => 0
    let usdcBal : Nat :=
      match tokens.usdc with
      | none => 0
      | some _ => match env.usdcResult with
        | Except.ok v => v
        | Except.error _ => 0
    Except.ok
      { eth := formatValue ethBal 18
        wei := ethBal
        usdt := formatValue usdtBal 6
        usdc := formatValue usdcBal 6 }

/-- Result type of `fetchBalance` (`AssetValues | 'Error'`). -/
inductive BalanceResult where
  | vals (v : AssetValues)
  | err
deriving DecidableEq, Repr

/-- Embedding of `fetchBalance` from `cryptoService.ts`: endpoint list and token set
resolved with the mainnet / empty fallbacks, attempts run through the
retry wrapper, and any overall failure caught into the `'Error'` value.
`envAt` gives the attempt environment observed at each endpoint URL. -/
def fetchBalance (formatValue : Nat → Nat → String) (networkKey : String)
    (envAt : String → BalanceAttemptEnv) : BalanceResult :=
  let rpcUrls := fetchBalanceUrls networkKey
  let tokens := fetchBalanceTokens networkKey
  match fetchWithRetry (rpcUrls.map (fun url => attemptBalance formatValue tokens (envAt url))) with
  | Except.ok v => BalanceResult.vals v
  | Except.error _ => BalanceResult.err

/-- C7: within a single `fetchBalance` endpoint attempt, a failed token
`balanceOf` lookup is absorbed as a zero balance and the attempt still
succeeds, while a failure of the native-currency query — or its hitting
the fixed 5000 ms timeout — fails the whole attempt. -/
theorem C7_balance_attempt_asymmetry (formatValue : Nat → Nat → String)
    (tokens : TokenCfg) (env : BalanceAttemptEnv) :
    (BALANCE_TIMEOUT_MS ≤ env.nativeDurationMs →
      attemptBalance formatValue tokens env = Except.error "RPC Timeout") ∧
    (∀ e, env.nativeDurationMs < BALANCE_TIMEOUT_MS →
      env.nativeResult = Except.error e →
      attemptBalance formatValue tokens env = Except.error e) ∧
    (∀ n, env.nativeDurationMs < BALANCE_TIMEOUT_MS →
      env.nativeResult = Except.ok n →
      ∃ v, attemptBalance formatValue tokens env = Except.ok v ∧
        v.wei = n ∧
        (∀ e, env.usdtResult = Except.error e → v.usdt = formatValue 0 6) ∧
        (∀ e, env.usdcResult = Except.error e → v.usdc = formatValue 0 6)) := by
  refine ⟨?_, ?_, ?_⟩
  · intro hto
    simp [attemptBalance, hto]
  · intro e hlt he
    simp [attemptBalance, Nat.not_le.mpr hlt, he]
  · intro n hlt hn
    have hattempt : attemptBalance formatValue tokens env =
        Except.ok
          { eth := formatValue n 18
            wei := n
            usdt := formatValue (match tokens.usdt with
              | none => 0
              | some _ => match env.usdtResult with
                | Except.ok v => v
                | Except.error _ => 0) 6
            usdc := formatValue (match tokens.usdc with
              | none => 0
              | some _ => match env.usdcResult with
                | Except.ok v => v
                | Except.error _ => 0) 6 } := by
      simp [attemptBalance, Nat.not_le.mpr hlt, hn]
    refine ⟨_, hattempt, rfl, ?_, ?_⟩
    · intro e he
      cases htok : tokens.usdt <;> simp [he]
    · intro e he
      cases htok : tokens.usdc <;> simp [he]

/-- Witness for C7: a fast, successful native query with both token
queries failing yields a successful attempt with zero token balances; a
native query at the timeout bound fails the attempt. -/
theorem C7_balance_attempt_asymmetry_witness :
    (∃ v, attemptBalance (fun n _ => toString n)
        { usdt := some "0xT", usdc := some "0xC" }
        { nativeDurationMs := 100, nativeResult := Except.ok 42,
          usdtResult := Except.error "token down",
          usdcResult := Except.error "token down" } = Except.ok v ∧
      v.wei = 42 ∧ v.usdt = toString 0 ∧ v.usdc = toString 0) ∧
    attemptBalance (fun n _ => toString n)
        { usdt := some "0xT", usdc := some "0xC" }
        { nativeDurationMs := 5000, nativeResult := Except.ok 42,
          usdtResult := Except.ok 1, usdcResult := Except.ok 1 } =
      Except.error "RPC Timeout" := by
  constructor
  · obtain ⟨v, hv, hwei, husdt, husdc⟩ :=
      (C7_balance_attempt_asymmetry (fun n _ => toString n)
        { usdt := some "0xT", usdc := some "0xC" }
        { nativeDurationMs := 100, nativeResult := Except.ok 42,
          usdtResult := Except.error "token down",
          usdcResult := Except.error "token down" }).2.2 42 (by decide) rfl
    exact ⟨v, hv, hwei, husdt "token down" rfl, husdc "token down" rfl⟩
  · exact (C7_balance_attempt_asymmetry (fun n _ => toString n)
      { usdt := some "0xT", usdc := some "0xC" }
      { nativeDurationMs := 5000, nativeResult := Except.ok 42,
        usdtResult := Except.ok 1, usdcResult := Except.ok 1 }).1 (by decide)

end FalconVault

namespace FalconVault

/-! ## String helpers

Kernel-reducible embeddings of the JS string operations the dispatcher
uses, needed so that concrete counterexamples evaluate. -/

/-- Helper for `strContains`: does `pat` occur at the head of `l`? -/
def headMatches : List Char → List Char → Bool
  | _, [] => true
  | [], _ :: _ => false
  | c :: cs, p :: ps => c == p && headMatches cs ps

/-- Does `pat` occur anywhere in `l`? -/
def listOccurs : List Char → List Char → Bool
  | [], pat => headMatches [] pat
  | c :: cs, pat => headMatches (c :: cs) pat || listOccurs cs pat

/-- JS `s.includes(pat)`: substring occurrence. -/
def strContains (s pat : String) : Bool := listOccurs s.data pat.data

/-- JS `s.startsWith(pat)`. -/
def strStartsWith (s pat : String) : Bool := headMatches s.data pat.data

/-- A single-quote character, written by code point to build the exact
dispatcher message text. -/
def squote : String := String.mk [Char.ofNat 39]

/-! ## Request dispatcher (the signer tool's `handleProcessRequest`)

The handler routes a request by its `type` string: `vault_*` methods
first, then the read-only RPC methods, and everything else falls through
to the signature path, which resolves `walletLabel` against the vault,
throws `Operation <type> requires a valid 'walletLabel' present in the
vault.` when it does not resolve, and only then decrypts the wallet's
encrypted private key.  The embedding records whether `decryptData` was
reached.  The bodies of the vault-management and RPC branches — which
never decrypt — are abstracted as outcome parameters. -/

/-- The declarative request object (`ApiRequest` in `src/types.ts`),
restricted to the fields the routing inspects. -/
structure ApiRequest where
  type : String
  walletLabel : Option String
deriving DecidableEq, Repr

/-- Observable outcome of one dispatcher run: response status, response
error message (when any), and whether key decryption was attempted. -/
structure DispatchOutcome where
  status : String
  errorMsg : Option String
  decryptAttempted : Bool
deriving DecidableEq, Repr

/-- The read-only RPC method names of branch 2 of the dispatcher. -/
def READ_ONLY_TYPES : List String :=
  ["eth_getBalance", "eth_call", "eth_estimateGas", "eth_sendRawTransaction"]

/-- The error thrown when the signature path cannot resolve a wallet:
`Operation ${request.type} requires a valid 'walletLabel' present in the vault.` -/
def signResolveErrorMsg (t : String) : String :=
  "Operation " ++ t ++ " requires a valid " ++ squote ++ "walletLabel" ++ squote ++
    " present in the vault."

/-- Wallet resolution of the signature path: `request.walletLabel` must be
truthy (present and nonempty) and name a wallet in the vault. -/
def resolveWallet (wallets : List WalletData) (walletLabel : Option String) :
    Option WalletData :=
  match walletLabel with
  | none => none
  | some lbl => if lbl == "" then none else wallets.find? (fun w => w.name == lbl)

/-- Embedding of `handleProcessRequest` routing, observed through `DispatchOutcome`.
`vaultOutcome` and `rpcOutcome` abstract the results of branches 1 and 2
(which never call `decryptData`); `decryptOracle` is `decryptData` on the
resolved wallet's blob and the session password; `signOutcome` abstracts
the type-specific signing call on the decrypted key. -/
def handleProcessRequest (wallets : List WalletData) (password : String)
    (vaultOutcome rpcOutcome : String × Option String)
    (decryptOracle : String → String → Except String String)
    (signOutcome : String → Except String String)
    (req : ApiRequest) : DispatchOutcome :=
  if strStartsWith req.type "vault_" then
    { status := vaultOutcome.1, errorMsg := vaultOutcome.2, decryptAttempted := false }
  else if READ_ONLY_TYPES.contains req.type then
    { status := rpcOutcome.1, errorMsg := rpcOutcome.2, decryptAttempted := false }
  else
    match resolveWallet wallets req.walletLabel with
    | none =>
      { status := "error", errorMsg := some (signResolveErrorMsg req.type),
        decryptAttempted := false }
    | some w =>
      match decryptOracle w.encryptedPrivateKey password with
      | Except.error e =>
        { status := "error", errorMsg := some e, decryptAttempted := true }
      | Except.ok privateKey =>
        if req.type == "personal_sign" || req.type == "eth_signTransaction" ||
            req.type == "eth_signTypedData" then
          match signOutcome privateKey with
          | Except.ok _ => { status := "success", errorMsg := none, decryptAttempted := true }
          | Except.error e =>
            { status := "error", errorMsg := some e, decryptAttempted := true }
        else
          { status := "error", errorMsg := some "Unsupported operation type",
            decryptAttempted := true }

/-- C5 counterexample: for the signing request
`{type: "eth_signTransaction", walletLabel: "A"}` against a vault with no
wallet labeled `"A"`, the dispatcher returns an error response and
attempts no decryption — but the error message does not contain the
unresolved label `"A"` (it names the operation and the `walletLabel`
field, not the label's value), refuting the claim that the message
identifies the unresolved label. -/
theorem C5_counterexample :
    (handleProcessRequest [] "pw" ("", none) ("", none)
        (fun _ _ => Except.ok "k") (fun _ => Except.ok "sig")
        { type := "eth_signTransaction", walletLabel := some "A" }).status = "error" ∧
    (handleProcessRequest [] "pw" ("", none) ("", none)
        (fun _ _ => Except.ok "k") (fun _ => Except.ok "sig")
        { type := "eth_signTransaction", walletLabel := some "A" }).decryptAttempted = false ∧
    (handleProcessRequest [] "pw" ("", none) ("", none)
        (fun _ _ => Except.ok "k") (fun _ => Except.ok "sig")
        { type := "eth_signTransaction", walletLabel := some "A" }).errorMsg =
      some (signResolveErrorMsg "eth_signTransaction") ∧
    strContains (signResolveErrorMsg "eth_signTransaction") "A" = false := by
  refine ⟨by decide, by decide, by decide, by decide⟩

/-- C5 (amended): for every signing request (`personal_sign`,
`eth_signTransaction`, `eth_signTypedData`) whose `walletLabel` does not
match any wallet in the vault, the dispatcher returns an error response
stating that the operation requires a valid `walletLabel` present in the
vault (naming the operation type, though not the label value), and no
decryption of any encrypted private key is attempted. -/
theorem C5_unresolved_label_no_decrypt (wallets : List WalletData)
    (password : String) (vaultOutcome rpcOutcome : String × Option String)
    (decryptOracle : String → String → Except String String)
    (signOutcome : String → Except String String) (t : String) (lbl : String)
    (ht : t = "personal_sign" ∨ t = "eth_signTransaction" ∨ t = "eth_signTypedData")
    (hnolabel : ∀ w ∈ wallets, w.name ≠ lbl) :
    handleProcessRequest wallets password vaultOutcome rpcOutcome decryptOracle
        signOutcome { type := t, walletLabel := some lbl } =
      { status := "error", errorMsg := some (signResolveErrorMsg t),
        decryptAttempted := false } := by
  have hres : resolveWallet wallets (some lbl) = none := by
    have hfind : wallets.find? (fun w => w.name == lbl) = none :=
      List.find?_eq_none.mpr (fun w hw => by simpa using hnolabel w hw)
    simp [resolveWallet, hfind]
  rcases ht with rfl | rfl | rfl <;>
    simp [handleProcessRequest, hres, strStartsWith, headMatches,
      READ_ONLY_TYPES]

/-- Witness for C5 (amended) at an unresolved label in a nonempty vault. -/
theorem C5_unresolved_label_no_decrypt_witness :
    handleProcessRequest
        [{ id := "w1", name := "B", address := "0xB", encryptedPrivateKey := "blob",
           metadata := [], createdAt := 0 }] "pw" ("", none) ("", none)
        (fun _ _ => Except.ok "k") (fun _ => Except.ok "sig")
        { type := "personal_sign", walletLabel := some "A" } =
      { status := "error", errorMsg := some (signResolveErrorMsg "personal_sign"),
        decryptAttempted := false } := by
  exact C5_unresolved_label_no_decrypt _ "pw" ("", none) ("", none) _ _
    "personal_sign" "A" (Or.inl rfl)
    (by intro w hw; fin_cases hw; decide)

end FalconVault

namespace FalconVault

/-! ## Typed-data signing (`signTypedData` in `cryptoService.ts`)

The function first constructs an ethers wallet from the private key
(`mkWallet`, which may fail on a malformed key), then validates that the
payload carries all of `domain`, `types` and `value`, throwing a fixed
validation message otherwise, and finally delegates to the library's
typed-data signer (`signTyped`). -/

/-- A typed-data payload: each of the three structured-data fields present
or absent (JS truthiness on `payload.domain` etc.). -/
structure TypedDataPayload (D T V : Type) where
  domain : Option D
  types : Option T
  value : Option V

/-- The validation message of `signTypedData`. -/
def typedDataErrorMsg : String :=
  "TypedData payload must contain domain, types, and value"

/-- Embedding of `signTypedData` from `cryptoService.ts`, with the ethers wallet
construction and typed-data signing abstracted as `mkWallet` and
`signTyped`. -/
def signTypedData {K D T V S : Type} (mkWallet : String → Except String K)
    (signTyped : K → D → T → V → Except String S)
    (privateKey : String) (payload : TypedDataPayload D T V) : Except String S :=
  match mkWallet privateKey with
  | Except.error e => Except.error e
  | Except.ok wallet =>
    match payload.domain, payload.types, payload.value with
    | some d, some t, some v => signTyped wallet d t v
    | none, _, _ => Except.error typedDataErrorMsg
    | _, none, _ => Except.error typedDataErrorMsg
    | _, _, none => Except.error typedDataErrorMsg

/-- C6: given a well-formed private key, `signTypedData` fails with the
validation error whenever any of `domain`, `types` or `value` is missing —
and that message names each of the three fields, so in particular the
missing one — while a payload carrying all three fields is passed straight
to the library signer, never raising the validation error. -/
theorem C6_typed_data_validation {K D T V S : Type}
    (mkWallet : String → Except String K)
    (signTyped : K → D → T → V → Except String S)
    (privateKey : String) (payload : TypedDataPayload D T V) (wallet : K)
    (hw : mkWallet privateKey = Except.ok wallet) :
    ((payload.domain = none ∨ payload.types = none ∨ payload.value = none) →
      signTypedData mkWallet signTyped privateKey payload =
        Except.error typedDataErrorMsg) ∧
    strContains typedDataErrorMsg "domain" = true ∧
    strContains typedDataErrorMsg "types" = true ∧
    strContains typedDataErrorMsg "value" = true ∧
    (∀ d t v, payload.domain = some d → payload.types = some t →
      payload.value = some v →
      signTypedData mkWallet signTyped privateKey payload = signTyped wallet d t v) := by
  refine ⟨?_, by decide, by decide, by decide, ?_⟩
  · intro hmissing
    rcases hmissing with h | h | h <;>
      cases hd : payload.domain <;> cases ht2 : payload.types <;>
        cases hv : payload.value <;>
      simp_all [signTypedData, hw]
  · intro d t v hd ht2 hv
    simp [signTypedData, hw, hd, ht2, hv]

/-- Witness for C6 at a concrete payload missing `types`, and at a
complete payload. -/
theorem C6_typed_data_validation_witness :
    signTypedData (fun _ => Except.ok ()) (fun _ _ _ _ => Except.ok "sig") "0xkey"
        ({ domain := some "d", types := none, value := some "v" } :
          TypedDataPayload String String String) = Except.error typedDataErrorMsg ∧
    signTypedData (fun _ => Except.ok ()) (fun _ _ _ _ => Except.ok "sig") "0xkey"
        ({ domain := some "d", types := some "t", value := some "v" } :
          TypedDataPayload String String String) = Except.ok "sig" := by
  constructor
  · exact (C6_typed_data_validation (fun _ => Except.ok ()) (fun _ _ _ _ => Except.ok "sig")
      "0xkey" { domain := some "d", types := none, value := some "v" } () rfl).1
      (Or.inr (Or.inl rfl))
  · exact (C6_typed_data_validation (fun _ => Except.ok ()) (fun _ _ _ _ => Except.ok "sig")
      "0xkey" { domain := some "d", types := some "t", value := some "v" } () rfl).2.2.2.2
      "d" "t" "v" rfl rfl rfl

end FalconVault

namespace FalconVault

/-! ## Backup import (`importVaultData` in `useVault.ts`)

`JSON.parse` may throw, and the parsed object must carry a `wallets`
array; both failures are caught into `{success: false}` without touching
the persisted store.  On success the backup wallets whose `id` is not
already present are appended, and the result is persisted under the hash
of the supplied current password. -/

/-- Parse outcome of the backup JSON handed to `importVaultData`. -/
inductive BackupParse where
  | malformed
  | badWallets
  | parsed (wallets : List WalletData)
deriving DecidableEq, Repr

/-- Result and post-state of one `importVaultData` call: the working
wallet list, the persisted store, and the returned structured result. -/
structure ImportOutcome where
  wallets : List WalletData
  store : Option VaultStore
  success : Bool
  count : Nat
deriving DecidableEq, Repr

/-- Embedding of `importVaultData` from `useVault.ts`: on a parsed backup, add the
backup wallets whose `id` is not in the current id set, persist the new
list with the current settings under `hash(currentPassword)`, and report
the number added; on any parse/validation failure, return a structured
failure leaving both the working list and the store untouched. -/
def importVaultData (sha256 : String → List Nat) (stringify : StoreData → String)
    (wallets : List WalletData) (settings : VaultSettings)
    (store : Option VaultStore) (input : BackupParse)
    (currentPassword : String) : ImportOutcome :=
  match input with
  | BackupParse.malformed =>
    { wallets := wallets, store := store, success := false, count := 0 }
  | BackupParse.badWallets =>
    { wallets := wallets, store := store, success := false, count := 0 }
  | BackupParse.parsed backupWallets =>
    let currentIds := wallets.map (fun w => w.id)
    let toAdd := backupWallets.filter (fun w => !(currentIds.contains w.id))
    let newWallets := wallets ++ toAdd
    let hash := hashPassword sha256 currentPassword
    let newStore := persist sha256 stringify newWallets settings hash
    { wallets := newWallets, store := some newStore, success := true,
      count := toAdd.length }

/-- C8: on a backup with a wallet list, `importVaultData` appends exactly
the backup wallets whose id is not already present (labels play no role),
leaves the existing wallets unchanged in place, persists the result with
the current settings under the supplied current password's hash, and
returns the count of wallets added; on a malformed backup it returns a
structured failure and mutates neither the working list nor the persisted
store. -/
theorem C8_import_merge_by_id (sha256 : String → List Nat)
    (stringify : StoreData → String) (wallets : List WalletData)
    (settings : VaultSettings) (store : Option VaultStore)
    (backupWallets : List WalletData) (currentPassword : String) :
    (∃ added,
      (importVaultData sha256 stringify wallets settings store
        (BackupParse.parsed backupWallets) currentPassword).wallets =
          wallets ++ added ∧
      (∀ w, w ∈ added ↔ w ∈ backupWallets ∧ w.id ∉ wallets.map (fun x => x.id)) ∧
      (importVaultData sha256 stringify wallets settings store
        (BackupParse.parsed backupWallets) currentPassword).count = added.length ∧
      (importVaultData sha256 stringify wallets settings store
        (BackupParse.parsed backupWallets) currentPassword).store =
        some (persist sha256 stringify (wallets ++ added) settings
          (hashPassword sha256 currentPassword)) ∧
      (importVaultData sha256 stringify wallets settings store
        (BackupParse.parsed backupWallets) currentPassword).success = true) ∧
    (∀ bad, (bad = BackupParse.malformed ∨ bad = BackupParse.badWallets) →
      importVaultData sha256 stringify wallets settings store bad currentPassword =
        { wallets := wallets, store := store, success := false, count := 0 }) := by
  constructor
  · refine ⟨(backupWallets.filter
      (fun w => !((wallets.map (fun x : WalletData => x.id)).contains w.id))),
      ?_, ?_, ?_, ?_, ?_⟩
    · rfl
    · intro w
      simp [List.mem_filter]
    · rfl
    · rfl
    · rfl
  · rintro bad (rfl | rfl) <;> rfl

/-- Witness for C8, Scenario E: re-importing a 2-wallet backup into a
vault already holding one of the two ids adds only the other wallet,
yielding a final count of 2 wallets with one wallet reported added. -/
theorem C8_import_merge_by_id_witness :
    (importVaultData sha256Stub stringifyStub
        [{ id := "id1", name := "A", address := "0xA", encryptedPrivateKey := "e1",
           metadata := [], createdAt := 0 }]
        DEFAULT_SETTINGS none
        (BackupParse.parsed
          [{ id := "id1", name := "A", address := "0xA", encryptedPrivateKey := "e1",
             metadata := [], createdAt := 0 },
           { id := "id2", name := "B", address := "0xB", encryptedPrivateKey := "e2",
             metadata := [], createdAt := 0 }]) "pw").count = 1 ∧
    (importVaultData sha256Stub stringifyStub
        [{ id := "id1", name := "A", address := "0xA", encryptedPrivateKey := "e1",
           metadata := [], createdAt := 0 }]
        DEFAULT_SETTINGS none
        (BackupParse.parsed
          [{ id := "id1", name := "A", address := "0xA", encryptedPrivateKey := "e1",
             metadata := [], createdAt := 0 },
           { id := "id2", name := "B", address := "0xB", encryptedPrivateKey := "e2",
             metadata := [], createdAt := 0 }]) "pw").wallets.length = 2 ∧
    importVaultData sha256Stub stringifyStub
        [{ id := "id1", name := "A", address := "0xA", encryptedPrivateKey := "e1",
           metadata := [], createdAt := 0 }]
        DEFAULT_SETTINGS none BackupParse.malformed "pw" =
      { wallets := [{ id := "id1", name := "A", address := "0xA",
                      encryptedPrivateKey := "e1", metadata := [], createdAt := 0 }],
        store := none, success := false, count := 0 } := by
  have h := C8_import_merge_by_id sha256Stub stringifyStub
    [{ id := "id1", name := "A", address := "0xA", encryptedPrivateKey := "e1",
       metadata := [], createdAt := 0 }]
    DEFAULT_SETTINGS none
    [{ id := "id1", name := "A", address := "0xA", encryptedPrivateKey := "e1",
       metadata := [], createdAt := 0 },
     { id := "id2", name := "B", address := "0xB", encryptedPrivateKey := "e2",
       metadata := [], createdAt := 0 }] "pw"
  refine ⟨by decide, by decide, h.2 BackupParse.malformed (Or.inl rfl)⟩

end FalconVault

namespace FalconVault

/-! ## Mutating operations and the checksum invariant (`useVault.ts`)

Each mutating operation updates the working state and immediately
re-persists through `persist`, which recomputes the checksum over exactly
the `{wallets, settings}` it writes.  The operations are modelled as
transitions on the full state (working wallets, working settings, session
password, persisted store). -/

/-- Full state of the vault hook relevant to persistence. -/
structure VaultState where
  wallets : List WalletData
  settings : VaultSettings
  masterPassword : String
  store : Option VaultStore
deriving DecidableEq, Repr

/-- JS object-spread merge `{...old, ...patch}` on wallet metadata:
patch keys override, remaining old keys survive. -/
def mergeMeta (old patch : List (String × String)) : List (String × String) :=
  old.filter (fun kv => !(patch.any (fun kv2 => kv2.1 == kv.1))) ++ patch

/-- Embedding of `createVault`: empty the working wallet list and persist it with the
current working settings under the new password's hash. -/
def createVault (sha256 : String → List Nat) (stringify : StoreData → String)
    (st : VaultState) (password : String) : VaultState :=
  let hash := hashPassword sha256 password
  { wallets := []
    settings := st.settings
    masterPassword := password
    store := some (persist sha256 stringify [] st.settings hash) }

/-- Embedding of `addWallet`: append and re-persist under the session password's hash. -/
def addWallet (sha256 : String → List Nat) (stringify : StoreData → String)
    (st : VaultState) (w : WalletData) : VaultState :=
  let newWallets := st.wallets ++ [w]
  let hash := hashPassword sha256 st.masterPassword
  { st with wallets := newWallets
            store := some (persist sha256 stringify newWallets st.settings hash) }

/-- Embedding of `removeWallet`: filter by id and re-persist. -/
def removeWallet (sha256 : String → List Nat) (stringify : StoreData → String)
    (st : VaultState) (id : String) : VaultState :=
  let newWallets := st.wallets.filter (fun w => !(w.id == id))
  let hash := hashPassword sha256 st.masterPassword
  { st with wallets := newWallets
            store := some (persist sha256 stringify newWallets st.settings hash) }

/-- Embedding of `updateWalletMetadata`: merge the patch into the matching wallet's
metadata and re-persist. -/
def updateWalletMetadata (sha256 : String → List Nat) (stringify : StoreData → String)
    (st : VaultState) (id : String) (meta : List (String × String)) : VaultState :=
  let newWallets := st.wallets.map (fun w =>
    if w.id == id then { w with metadata := mergeMeta w.metadata meta } else w)
  let hash := hashPassword sha256 st.masterPassword
  { st with wallets := newWallets
            store := some (persist sha256 stringify newWallets st.settings hash) }

/-- Embedding of `updateSettings`: merge the patch over the working settings and
re-persist the working wallets with the updated settings. -/
def updateSettings (sha256 : String → List Nat) (stringify : StoreData → String)
    (st : VaultState) (patch : SettingsPatch) : VaultState :=
  let updated := mergeSettings st.settings patch
  let hash := hashPassword sha256 st.masterPassword
  { st with settings := updated
            store := some (persist sha256 stringify st.wallets updated hash) }

/-- Embedding of `importVaultData` as a state transition (see `importVaultData`). -/
def importVaultOp (sha256 : String → List Nat) (stringify : StoreData → String)
    (st : VaultState) (input : BackupParse) (currentPassword : String) : VaultState :=
  let out := importVaultData sha256 stringify st.wallets st.settings st.store
    input currentPassword
  { st with wallets := out.wallets, store := out.store }

/-- One mutating vault operation. -/
inductive VaultOp where
  | create (password : String)
  | add (w : WalletData)
  | remove (id : String)
  | updateMeta (id : String) (meta : List (String × String))
  | setSettings (patch : SettingsPatch)
  | importData (input : BackupParse) (password : String)
deriving Repr

/-- Step function over the mutating vault operations. -/
def stepVault (sha256 : String → List Nat) (stringify : StoreData → String)
    (st : VaultState) : VaultOp → VaultState
  | VaultOp.create password => createVault sha256 stringify st password
  | VaultOp.add w => addWallet sha256 stringify st w
  | VaultOp.remove id => removeWallet sha256 stringify st id
  | VaultOp.updateMeta id meta => updateWalletMetadata sha256 stringify st id meta
  | VaultOp.setSettings patch => updateSettings sha256 stringify st patch
  | VaultOp.importData input password => importVaultOp sha256 stringify st input password

/-- The checksum invariant of the persisted store: absent, or its checksum
equals the integrity hash recomputed over exactly its own
`{wallets, settings}`. -/
def storeChecksumOK (sha256 : String → List Nat) (stringify : StoreData → String) :
    Option VaultStore → Prop
  | none => True
  | some v => v.checksum =
      generateIntegrityHash sha256 stringify { wallets := v.wallets, settings := v.settings }

/-- Every store written by `persist` satisfies the checksum invariant. -/
theorem persist_storeChecksumOK (sha256 : String → List Nat)
    (stringify : StoreData → String) (ws : List WalletData)
    (settings : VaultSettings) (passHash : String) :
    storeChecksumOK sha256 stringify (some (persist sha256 stringify ws settings passHash)) :=
  rfl

/-- One step preserves the checksum invariant. -/
theorem stepVault_storeChecksumOK (sha256 : String → List Nat)
    (stringify : StoreData → String) (st : VaultState) (op : VaultOp)
    (h : storeChecksumOK sha256 stringify st.store) :
    storeChecksumOK sha256 stringify (stepVault sha256 stringify st op).store := by
  cases op with
  | create password => exact rfl
  | add w => exact rfl
  | remove id => exact rfl
  | updateMeta id meta => exact rfl
  | setSettings patch => exact rfl
  | importData input password =>
    cases input with
    | malformed => exact h
    | badWallets => exact h
    | parsed bws => exact rfl

/-- C10: every persisting operation writes a store whose checksum equals
the integrity hash recomputed over exactly the `{wallets, settings}` it
writes, so after any sequence of `createVault`, `addWallet`,
`removeWallet`, `updateWalletMetadata`, `updateSettings`,
`importVaultData` starting from a state whose persisted store satisfies
the checksum invariant (in particular from an empty storage), the
persisted store still satisfies it. -/
theorem C10_checksum_invariant (sha256 : String → List Nat)
    (stringify : StoreData → String) (ops : List VaultOp) (st : VaultState)
    (h : storeChecksumOK sha256 stringify st.store) :
    storeChecksumOK sha256 stringify
      ((ops.foldl (stepVault sha256 stringify) st).store) := by
  induction ops generalizing st with
  | nil => exact h
  | cons op ops ih =>
    exact ih (stepVault sha256 stringify st op)
      (stepVault_storeChecksumOK sha256 stringify st op h)

/-- Witness for C10: a concrete operation sequence from empty storage. -/
theorem C10_checksum_invariant_witness :
    storeChecksumOK sha256Stub stringifyStub
      (([VaultOp.create "pw",
         VaultOp.add { id := "id1", name := "A", address := "0xA",
                       encryptedPrivateKey := "e1", metadata := [], createdAt := 0 },
         VaultOp.setSettings { autoLockMinutes := some 5, enableLogging := none,
                               attributeDefinitions := none },
         VaultOp.remove "id1"].foldl (stepVault sha256Stub stringifyStub)
        { wallets := [], settings := DEFAULT_SETTINGS, masterPassword := "",
          store := none }).store) :=
  C10_checksum_invariant sha256Stub stringifyStub _ _ trivial

end FalconVault
